import Mathlib

/-!
Shallow embedding of the MoodMate journal data and analytics layer
(services/journal-service.ts, components/mood-trends.tsx,
components/weather-correlation.tsx, app/page.tsx) together with proofs of
its specified properties.

Modelling conventions:
* JavaScript numbers holding epoch milliseconds and temperatures are
  modelled as `Int`; exact percentages are modelled as `ℚ`.
* `localStorage` content under the single storage key is modelled as
  `Option (Option (List JournalEntry))`: `none` is "no data stored",
  `some none` is "stored data fails to parse", `some (some es)` is a
  successfully parsed array.
* `Array.prototype.sort` (stable since ES2019) is modelled by
  `List.mergeSort`, which is stable.
* `date-fns.format date "MMMM d, yyyy"` is an external library call and is
  passed in as an explicit function argument `fmt : Int → String` applied
  to the epoch-millisecond value of the `Date`.
* `Date.now()` at the moment of an operation is passed in as an explicit
  `now : Int` argument.
-/

namespace MoodJournal

/-- The closed mood set from types/journal-types.ts. -/
inductive Mood where
  | happy
  | neutral
  | sad
  | angry
  | sick
deriving DecidableEq, Repr

/-- The string literal the TypeScript `Mood` union member denotes. -/
def moodToString : Mood → String
  | .happy => "happy"
  | .neutral => "neutral"
  | .sad => "sad"
  | .angry => "angry"
  | .sick => "sick"

/-- `Weather` from types/journal-types.ts; `location` is optional. -/
structure Weather where
  temp : Int
  condition : String
  icon : String
  location : Option String
deriving DecidableEq, Repr

/-- `JournalEntry` from types/journal-types.ts. -/
structure JournalEntry where
  id : String
  date : String
  mood : Mood
  note : String
  weather : Weather
  timestamp : Int
deriving DecidableEq, Repr

/-- `TimeRange` from types/journal-types.ts. -/
inductive TimeRange where
  | week
  | month
  | all
deriving DecidableEq, Repr

/-- `ExportFormat` from types/journal-types.ts. -/
inductive ExportFormat where
  | csv
  | json
deriving DecidableEq, Repr

/-! ## Journal store (services/journal-service.ts) -/

/-- Stored content under the `moodJournalEntries` key: `none` = key absent,
`some none` = JSON.parse failure, `some (some es)` = parsed entries. -/
abbrev StoredState := Option (Option (List JournalEntry))

/-- `entries.sort((a, b) => b.timestamp - a.timestamp)`: stable sort,
newest first. -/
def sortByTimestampDesc (entries : List JournalEntry) : List JournalEntry :=
  entries.mergeSort (fun a b => decide (b.timestamp ≤ a.timestamp))

/-- `getJournalEntries`: read the key, return `[]` when absent, parse,
sort newest first; any error (in particular a parse error) is caught and
yields `[]`. -/
def getJournalEntries (stored : StoredState) : List JournalEntry :=
  match stored with
  | none => []
  | some none => []
  | some (some entries) => sortByTimestampDesc entries

/-- The argument record of `saveJournalEntry` (`date` as epoch ms). -/
structure EntryData where
  date : Int
  mood : Mood
  note : String
  weather : Weather
deriving DecidableEq, Repr

/-- `saveJournalEntry`: build the new entry with `id = Date.now().toString()`,
`date` formatted from the selected date, `timestamp` the selected date in
epoch ms; prepend it to the existing (read, hence sorted) entries and write
the whole list back. Returns the new entry and the written list. -/
def saveJournalEntry (fmt : Int → String) (now : Int) (entryData : EntryData)
    (stored : StoredState) : JournalEntry × List JournalEntry :=
  let newEntry : JournalEntry :=
    { id := toString now
      date := fmt entryData.date
      mood := entryData.mood
      note := entryData.note
      weather := entryData.weather
      timestamp := entryData.date }
  let existingEntries := getJournalEntries stored
  (newEntry, newEntry :: existingEntries)

/-- JavaScript `String.prototype.trim`: strip leading and trailing
whitespace (modelled with `Char.isWhitespace`). -/
def jsTrim (s : String) : String :=
  String.mk (((s.toList.dropWhile Char.isWhitespace).reverse.dropWhile
    Char.isWhitespace).reverse)

/-- `handleSaveEntry` (app/page.tsx): abort when no mood is selected or no
weather is loaded; otherwise call the store with
`note: note.trim() || "Feeling " + selectedMood + " today"`
(a JS string is falsy exactly when empty, so the default is substituted
exactly when the trimmed note is empty). -/
def handleSaveEntry (fmt : Int → String) (now : Int) (selectedDate : Int)
    (selectedMood : Option Mood) (note : String) (weather : Option Weather)
    (stored : StoredState) : Option (JournalEntry × List JournalEntry) :=
  match selectedMood, weather with
  | some mood, some w =>
      some (saveJournalEntry fmt now
        { date := selectedDate
          mood := mood
          note := if jsTrim note = "" then
                    "Feeling " ++ moodToString mood ++ " today"
                  else jsTrim note
          weather := w }
        stored)
  | _, _ => none

/-! ## Time-range filter (services/journal-service.ts) -/

/-- `msInDay = 86400000`. -/
def msInDay : Int := 86400000

/-- `filterEntriesByTimeRange`: identity for `all`; otherwise keep entries
with `entry.timestamp >= cutoffTime`, where the cutoff is `now - 7*msInDay`
for `week` and `now - 30*msInDay` for `month`. -/
def filterEntriesByTimeRange (now : Int) (entries : List JournalEntry) :
    TimeRange → List JournalEntry
  | .all => entries
  | .week => entries.filter (fun e => decide (now - 7 * msInDay ≤ e.timestamp))
  | .month => entries.filter (fun e => decide (now - 30 * msInDay ≤ e.timestamp))

/-! ## Export module (services/journal-service.ts) -/

/-- `note.replace(/"/g, quote-quote)`: replace every double quote by two. -/
def escapeQuotes (s : String) : String :=
  String.mk (s.toList.flatMap (fun c => if c = '"' then ['"', '"'] else [c]))

/-- `entry.weather.location || "Unknown"`: a JS string is falsy exactly when
it is empty, and an absent property is falsy, so missing and empty both
render as `Unknown`. -/
def renderLocation (loc : Option String) : String :=
  match loc with
  | none => "Unknown"
  | some s => if s = "" then "Unknown" else s

/-- One CSV data row, the template literal of `exportJournalEntries`. -/
def csvRow (e : JournalEntry) : String :=
  "\"" ++ e.date ++ "\",\"" ++ moodToString e.mood ++ "\",\"" ++
    escapeQuotes e.note ++ "\",\"" ++ toString e.weather.temp ++ "°C\",\"" ++
    e.weather.condition ++ "\",\"" ++ renderLocation e.weather.location ++ "\""

/-- The CSV header string (with its trailing newline, as in the source). -/
def csvHeaders : String := "Date,Mood,Note,Temperature,Weather Condition,Location\n"

/-- One hex digit, for JSON control-character escapes. -/
def hexDigit (n : Nat) : String :=
  if n < 10 then toString n
  else if n = 10 then "a" else if n = 11 then "b" else if n = 12 then "c"
  else if n = 13 then "d" else if n = 14 then "e" else "f"

/-- JSON string-character escaping as performed by `JSON.stringify`. -/
def jsonEscapeChar (c : Char) : String :=
  if c = '"' then "\\\""
  else if c = '\\' then "\\\\"
  else if c = '\n' then "\\n"
  else if c = '\r' then "\\r"
  else if c = '\t' then "\\t"
  else if c = '\x08' then "\\b"
  else if c = '\x0c' then "\\f"
  else if c.toNat < 32 then "\\u00" ++ hexDigit (c.toNat / 16) ++ hexDigit (c.toNat % 16)
  else String.singleton c

/-- A JSON string literal for `s`. -/
def jsonString (s : String) : String :=
  "\"" ++ String.join (s.toList.map jsonEscapeChar) ++ "\""

/-- One entry as pretty-printed by `JSON.stringify(entries, null, 2)`:
keys in insertion order, two-space indentation, the optional `location`
key omitted when absent. -/
def jsonEntryLines (e : JournalEntry) : String :=
  "  \x7b\n" ++
  "    \"id\": " ++ jsonString e.id ++ ",\n" ++
  "    \"date\": " ++ jsonString e.date ++ ",\n" ++
  "    \"mood\": " ++ jsonString (moodToString e.mood) ++ ",\n" ++
  "    \"note\": " ++ jsonString e.note ++ ",\n" ++
  "    \"weather\": \x7b\n" ++
  "      \"temp\": " ++ toString e.weather.temp ++ ",\n" ++
  "      \"condition\": " ++ jsonString e.weather.condition ++ ",\n" ++
  "      \"icon\": " ++ jsonString e.weather.icon ++
  (match e.weather.location with
   | none => "\n"
   | some loc => ",\n      \"location\": " ++ jsonString loc ++ "\n") ++
  "    \x7d,\n" ++
  "    \"timestamp\": " ++ toString e.timestamp ++ "\n" ++
  "  \x7d"

/-- `JSON.stringify(entries, null, 2)`. -/
def jsonStringifyEntries (entries : List JournalEntry) : String :=
  match entries with
  | [] => "[]"
  | _ => "[\n" ++ String.intercalate ",\n" (entries.map jsonEntryLines) ++ "\n]"

/-- `exportJournalEntries`: throw on an empty list; otherwise produce the
data string and the file name for the requested format.  The browser
download side effect is outside the model; the result carries the
serialized data and the returned file name. -/
def exportJournalEntries (currentDate : String) (entries : List JournalEntry)
    (format : ExportFormat) : Except String (String × String) :=
  if entries.length = 0 then
    Except.error "No entries to export"
  else
    match format with
    | .csv =>
        Except.ok (csvHeaders ++ String.intercalate "\n" (entries.map csvRow),
          "moodmate-journal-" ++ currentDate ++ ".csv")
    | .json =>
        Except.ok (jsonStringifyEntries entries,
          "moodmate-journal-" ++ currentDate ++ ".json")

/-! ## Analytics: mood distribution (components/mood-trends.tsx) -/

/-- The fixed mood enumeration `allMoods` of mood-trends.tsx, which is also
the key insertion order of the `moodCounts` record in
weather-correlation.tsx. -/
def allMoods : List Mood := [.happy, .neutral, .sad, .angry, .sick]

/-- Position of a mood in the fixed enumeration. -/
def moodIdx : Mood → Nat
  | .happy => 0
  | .neutral => 1
  | .sad => 2
  | .angry => 3
  | .sick => 4

/-- Number of entries with the given mood: the value `counts[mood] || 0`
after the counting `reduce` of mood-trends.tsx. -/
def countMood (m : Mood) (entries : List JournalEntry) : Nat :=
  entries.countP (fun e => decide (e.mood = m))

/-- `getMoodLabel` of mood-trends.tsx. -/
def getMoodLabel : Mood → String
  | .happy => "Happy"
  | .neutral => "Neutral"
  | .sad => "Sad"
  | .angry => "Angry"
  | .sick => "Sick"

/-- `getMoodEmoji` of mood-trends.tsx. -/
def getMoodEmoji : Mood → String
  | .happy => "😊"
  | .neutral => "😐"
  | .sad => "😔"
  | .angry => "😠"
  | .sick => "🤢"

/-- `getMoodColorClass` of mood-trends.tsx. -/
def getMoodColorClass : Mood → String
  | .happy => "bg-green-400 dark:bg-green-500"
  | .neutral => "bg-blue-400 dark:bg-blue-500"
  | .sad => "bg-indigo-400 dark:bg-indigo-500"
  | .angry => "bg-red-400 dark:bg-red-500"
  | .sick => "bg-emerald-600 dark:bg-emerald-700"

/-- One element of the `moodStats` array. -/
structure MoodStat where
  mood : Mood
  count : Nat
  percentage : ℚ
  label : String
  emoji : String
  colorClass : String
deriving DecidableEq, Repr

/-- The stat record built for one mood inside the `map` of `moodStats`. -/
def mkMoodStat (entries : List JournalEntry) (mood : Mood) : MoodStat :=
  let totalEntries := entries.length
  let count := countMood mood entries
  { mood := mood
    count := count
    percentage := if totalEntries > 0 then ((count : ℚ) / totalEntries) * 100 else 0
    label := getMoodLabel mood
    emoji := getMoodEmoji mood
    colorClass := getMoodColorClass mood }

/-- The comparator `(a, b) => b.percentage - a.percentage`: `a` may stay
before `b` exactly when the comparator is nonpositive. -/
def moodStatsLE (a b : MoodStat) : Bool := decide (b.percentage ≤ a.percentage)

/-- `moodStats`: one record per fixed mood, stably sorted by descending
percentage (`Array.prototype.sort` is stable). -/
def moodStats (entries : List JournalEntry) : List MoodStat :=
  (allMoods.map (mkMoodStat entries)).mergeSort moodStatsLE

/-! ## Analytics: weather correlation (components/weather-correlation.tsx) -/

/-- One step of the grouping loop `entries.forEach(...)`: create the key on
first encounter, otherwise push onto the existing group. -/
def groupStep (groups : List (String × List JournalEntry)) (e : JournalEntry) :
    List (String × List JournalEntry) :=
  if groups.any (fun g => decide (g.1 = e.weather.condition)) then
    groups.map (fun g =>
      if g.1 = e.weather.condition then (g.1, g.2 ++ [e]) else g)
  else groups ++ [(e.weather.condition, [e])]

/-- Grouping of entries by exact `weather.condition`: a JS object whose
keys appear in first-encountered order, each holding the pushed entries in
input order. -/
def groupByCondition (entries : List JournalEntry) :
    List (String × List JournalEntry) :=
  entries.foldl groupStep []

/-- `Math.round x = ⌊x + 1/2⌋` (rounds halves toward positive infinity). -/
def jsRound (x : ℚ) : Int := (x + 1 / 2).floor

/-- The dominant-mood scan: iterate `Object.entries(moodCounts)` in key
insertion order (the fixed enumeration), starting from `("neutral", 0)`,
replacing the champion only on a strictly greater count. -/
def dominantFold (counts : Mood → Nat) : Mood × Nat :=
  allMoods.foldl (fun acc m => if counts m > acc.2 then (m, counts m) else acc)
    (Mood.neutral, 0)

/-- One element of the `correlation` array. -/
structure CorrelationRow where
  condition : String
  totalEntries : Nat
  dominantMood : Mood
  dominantPercentage : Int
  averageTemp : Int
deriving DecidableEq, Repr

/-- The per-group record built inside the `map` of `correlation`. -/
def correlationRowFor (condition : String)
    (conditionEntries : List JournalEntry) : CorrelationRow :=
  let d := dominantFold (fun m => countMood m conditionEntries)
  let totalEntries := conditionEntries.length
  { condition := condition
    totalEntries := totalEntries
    dominantMood := d.1
    dominantPercentage := jsRound (((d.2 : ℚ) / totalEntries) * 100)
    averageTemp :=
      jsRound ((((conditionEntries.map (fun e => e.weather.temp)).sum : Int) : ℚ)
        / totalEntries) }

/-- The comparator `(a, b) => b.totalEntries - a.totalEntries`. -/
def correlationLE (a b : CorrelationRow) : Bool :=
  decide (b.totalEntries ≤ a.totalEntries)

/-- `correlation`: group by condition, build each row, stably sort by
descending group size. -/
def correlation (entries : List JournalEntry) : List CorrelationRow :=
  ((groupByCondition entries).map (fun p => correlationRowFor p.1 p.2)).mergeSort
    correlationLE

/-- Number of newline characters in a string; a string with `k` newline
characters prints as `k + 1` lines. -/
def newlineCount (s : String) : Nat := s.data.count '\n'

/-! ## Specification-side renderings, for comparison with the code

These definitions follow the WORDING of spec statements (not the source)
and exist solely to be compared against the embedded code. -/

/-- The CSV header row, without a line terminator. -/
def csvHeaderLine : String := "Date,Mood,Note,Temperature,Weather Condition,Location"

/-- Wrap a CSV field in double quotes. -/
def quoteCsvField (f : String) : String := "\"" ++ f ++ "\""

/-- A data row as described by the claim text for the CSV format: every
field double-quoted, embedded double quotes escaped by doubling in EVERY
field, temperature as the integer followed by the °C sign, a missing
location rendered as the literal Unknown. -/
def csvRowClaim (e : JournalEntry) : String :=
  String.intercalate ","
    (([e.date, moodToString e.mood, e.note,
       toString e.weather.temp ++ "°C", e.weather.condition,
       (match e.weather.location with
        | none => "Unknown"
        | some s => s)].map
      (fun f => quoteCsvField (escapeQuotes f))))

/-- CSV output as described by the claim text: header row then one row per
entry in input order. -/
def csvOutputClaim (entries : List JournalEntry) : String :=
  csvHeaderLine ++ "\n" ++ String.intercalate "\n" (entries.map csvRowClaim)

/-- A data row as described by the AMENDED claim: every field double-quoted,
embedded double quotes escaped by doubling in the note field only (other
fields rendered verbatim), temperature as the integer followed by the °C
sign, a missing or empty location rendered as the literal Unknown. -/
def csvRowSpecAmended (e : JournalEntry) : String :=
  String.intercalate ","
    (([e.date, moodToString e.mood, escapeQuotes e.note,
       toString e.weather.temp ++ "°C", e.weather.condition,
       (match e.weather.location with
        | none => "Unknown"
        | some s => if s = "" then "Unknown" else s)].map
      quoteCsvField))

/-- CSV output as described by the amended claim: header row then one row
per entry in input order. -/
def csvOutputSpecAmended (entries : List JournalEntry) : String :=
  csvHeaderLine ++ "\n" ++ String.intercalate "\n" (entries.map csvRowSpecAmended)

/-! ## Concrete data used in witnesses and counterexamples -/

/-- A fixed stand-in for the external date formatter. -/
def constFmt : Int → String := fun _ => "April 1, 2025"

/-- A concrete weather snapshot. -/
def sampleWeather : Weather :=
  { temp := 25, condition := "Clear", icon := "01d", location := some "Sample City" }

/-- A concrete entry with the given timestamp. -/
def sampleEntry (ts : Int) : JournalEntry :=
  { id := "1", date := "April 1, 2025", mood := .happy, note := "Feeling great today!",
    weather := sampleWeather, timestamp := ts }

/-- An entry whose weather condition embeds a double quote. -/
def quoteCondEntry : JournalEntry :=
  { id := "2", date := "April 2, 2025", mood := .sad, note := "ok",
    weather := { temp := 18, condition := "Rain \"heavy\"", icon := "10d",
                 location := some "Pune" },
    timestamp := 2 }

/-- An entry whose note embeds a newline character. -/
def newlineNoteEntry : JournalEntry :=
  { id := "3", date := "April 3, 2025", mood := .neutral, note := "line one\nline two",
    weather := sampleWeather, timestamp := 3 }

/-- The three Rain entries of the correlation test scenario. -/
def rainEntries : List JournalEntry :=
  [{ id := "r1", date := "d1", mood := .sad, note := "",
     weather := { temp := 18, condition := "Rain", icon := "10d", location := some "X" },
     timestamp := 1 },
   { id := "r2", date := "d2", mood := .sad, note := "",
     weather := { temp := 19, condition := "Rain", icon := "10d", location := some "X" },
     timestamp := 2 },
   { id := "r3", date := "d3", mood := .happy, note := "",
     weather := { temp := 20, condition := "Rain", icon := "10d", location := some "X" },
     timestamp := 3 }]

/-- An entry whose weather location is present but empty. -/
def emptyLocEntry : JournalEntry :=
  { id := "4", date := "April 4, 2025", mood := .angry, note := "hm",
    weather := { temp := 27, condition := "Clear", icon := "01d", location := some "" },
    timestamp := 4 }

/-- The persisted store after two saves that both observe
`Date.now() = 1000` (the same millisecond), starting from an empty store. -/
def twoSavesSameMillisecond : List JournalEntry :=
  (saveJournalEntry constFmt 1000
    { date := 86400000, mood := .sad, note := "Second save", weather := sampleWeather }
    (some (some (saveJournalEntry constFmt 1000
      { date := 0, mood := .happy, note := "First save", weather := sampleWeather }
      none).2))).2

/-! Sanity checks of the embedding on concrete data. -/

example :
    filterEntriesByTimeRange 86400000 [] TimeRange.week = [] := by decide

example : jsRound ((2 / 3 : ℚ) * 100) = 67 := by with_unfolding_all decide

example :
    escapeQuotes "a\"b" = "a\"\"b" := by decide

example :
    (correlationRowFor "Rain"
      [{ id := "1", date := "d", mood := .sad, note := "",
         weather := { temp := 18, condition := "Rain", icon := "10d",
                      location := some "X" }, timestamp := 1 },
       { id := "2", date := "d", mood := .sad, note := "",
         weather := { temp := 19, condition := "Rain", icon := "10d",
                      location := some "X" }, timestamp := 2 },
       { id := "3", date := "d", mood := .happy, note := "",
         weather := { temp := 20, condition := "Rain", icon := "10d",
                      location := some "X" }, timestamp := 3 }]).dominantPercentage
      = 67 := by with_unfolding_all decide

end MoodJournal

namespace MoodJournal

/-! ## Claim C6: list postcondition -/

/-- Claim C6: for every persisted state, list returns the persisted entries
sorted by timestamp in non-increasing order (most recent first); it returns
the empty sequence when no data exists under the storage key and when the
persisted data fails to parse, and the parse failure is swallowed rather
than surfaced as an error (the function still returns normally). -/
theorem getJournalEntries_spec :
    (∀ stored : StoredState,
      (getJournalEntries stored).Pairwise (fun a b => b.timestamp ≤ a.timestamp)) ∧
    getJournalEntries none = [] ∧
    getJournalEntries (some none) = [] ∧
    (∀ entries : List JournalEntry,
      (getJournalEntries (some (some entries))).Perm entries) := by
  have htrans : ∀ a b c : JournalEntry,
      decide (b.timestamp ≤ a.timestamp) → decide (c.timestamp ≤ b.timestamp) →
      decide (c.timestamp ≤ a.timestamp) := by
    intro a b c hab hbc
    simp only [decide_eq_true_eq] at *
    omega
  have htotal : ∀ a b : JournalEntry,
      (decide (b.timestamp ≤ a.timestamp) || decide (a.timestamp ≤ b.timestamp)) = true := by
    intro a b
    simp only [Bool.or_eq_true, decide_eq_true_eq]
    omega
  refine ⟨?_, rfl, rfl, ?_⟩
  · intro stored
    match stored with
    | none => simp [getJournalEntries]
    | some none => simp [getJournalEntries]
    | some (some entries) =>
      have h := List.sorted_mergeSort htrans htotal entries
      exact h.imp (fun hab => of_decide_eq_true hab)
  · intro entries
    exact List.mergeSort_perm entries _

/-! ## Claim C7: filter monotonicity and identity -/

/-- Claim C7: at any fixed current time, the week filter result is a
sub-sequence of the month filter result, which is a sub-sequence of the
input (so relative order of retained entries is preserved and nothing is
mutated); the all range returns the input unchanged; and the cutoff
comparison is inclusive, so an entry exactly at the week (resp. month)
cutoff millisecond `now - 7*86400000` (resp. `now - 30*86400000`) is
retained. -/
theorem filterEntries_monotone :
    ∀ (now : Int) (entries : List JournalEntry),
      (filterEntriesByTimeRange now entries .week).Sublist
        (filterEntriesByTimeRange now entries .month) ∧
      (filterEntriesByTimeRange now entries .month).Sublist entries ∧
      filterEntriesByTimeRange now entries .all = entries ∧
      (∀ e ∈ entries, e.timestamp = now - 7 * msInDay →
        e ∈ filterEntriesByTimeRange now entries .week) ∧
      (∀ e ∈ entries, e.timestamp = now - 30 * msInDay →
        e ∈ filterEntriesByTimeRange now entries .month) := by
  intro now entries
  refine ⟨?_, List.filter_sublist entries, rfl, ?_, ?_⟩
  · apply List.monotone_filter_right
    intro e he
    simp only [decide_eq_true_eq, msInDay] at *
    omega
  · intro e he h
    apply List.mem_filter.mpr
    refine ⟨he, ?_⟩
    simp only [decide_eq_true_eq, msInDay] at *
    omega
  · intro e he h
    apply List.mem_filter.mpr
    refine ⟨he, ?_⟩
    simp only [decide_eq_true_eq, msInDay] at *
    omega

/-- Witness for C7 at a concrete input: an entry lying exactly at the week
cutoff millisecond is retained by both the week and the month filter. -/
theorem filterEntries_monotone_witness :
    sampleEntry 0 ∈ [sampleEntry 0] ∧
    (sampleEntry 0).timestamp = 604800000 - 7 * msInDay ∧
    sampleEntry 0 ∈ filterEntriesByTimeRange 604800000 [sampleEntry 0] .week :=
  ⟨by decide, by decide,
    (filterEntries_monotone 604800000 [sampleEntry 0]).2.2.2.1
      (sampleEntry 0) (by decide) (by decide)⟩

/-! ## Claim C9: future entries are retained (no upper cutoff) -/

/-- Claim C9: the week and month filters apply only a lower bound, so every
entry whose timestamp lies strictly in the future of the filter-time `now`
is retained by both. -/
theorem future_entries_retained :
    ∀ (now : Int) (entries : List JournalEntry) (e : JournalEntry),
      e ∈ entries → now < e.timestamp →
      e ∈ filterEntriesByTimeRange now entries .week ∧
      e ∈ filterEntriesByTimeRange now entries .month := by
  intro now entries e he hf
  constructor <;>
    · apply List.mem_filter.mpr
      refine ⟨he, ?_⟩
      simp only [decide_eq_true_eq, msInDay]
      omega

/-- Witness for C9: a concrete entry one millisecond in the future of
`now = 0` is retained by both filters. -/
theorem future_entries_retained_witness :
    sampleEntry 1 ∈ [sampleEntry 1] ∧ (0 : Int) < (sampleEntry 1).timestamp ∧
    (sampleEntry 1 ∈ filterEntriesByTimeRange 0 [sampleEntry 1] .week ∧
     sampleEntry 1 ∈ filterEntriesByTimeRange 0 [sampleEntry 1] .month) :=
  ⟨by decide, by decide,
    future_entries_retained 0 [sampleEntry 1] (sampleEntry 1) (by decide) (by decide)⟩

/-! ## Claim C10: empty location also renders as Unknown -/

/-- Claim C10: in CSV export the location field is rendered through the JS
falsiness check `location || "Unknown"`, so an entry whose location is
present but equal to the empty string renders exactly like an entry with a
missing location, and its location field is the literal Unknown. -/
theorem empty_location_rendered_unknown :
    ∀ e : JournalEntry, e.weather.location = some "" →
      renderLocation e.weather.location = "Unknown" ∧
      csvRow e = csvRow { e with weather := { e.weather with location := none } } := by
  intro e h
  constructor
  · simp [renderLocation, h]
  · simp [csvRow, renderLocation, h]

/-- Witness for C10: a concrete entry with an empty-string location. -/
theorem empty_location_rendered_unknown_witness :
    emptyLocEntry.weather.location = some "" ∧
    (renderLocation emptyLocEntry.weather.location = "Unknown" ∧
     csvRow emptyLocEntry =
       csvRow { emptyLocEntry with
                weather := { emptyLocEntry.weather with location := none } }) :=
  ⟨rfl, empty_location_rendered_unknown emptyLocEntry rfl⟩

end MoodJournal

namespace MoodJournal

/-! ## Claim C1: id uniqueness across the store -/

/-- Claim C1 (failing input): `saveJournalEntry` assigns
`id = Date.now().toString()`, so two saves that observe the same
millisecond — as consecutive iterations of the `addSampleEntries` loop
can — both receive the id "1000" here, and the persisted store holds two
entries whose ids are NOT pairwise distinct. -/
theorem same_millisecond_saves_duplicate_id :
    twoSavesSameMillisecond.map (fun e => e.id) = ["1000", "1000"] ∧
    ¬ (twoSavesSameMillisecond.map (fun e => e.id)).Nodup := by
  have h : twoSavesSameMillisecond.map (fun e => e.id) = ["1000", "1000"] := by
    simp only [twoSavesSameMillisecond, saveJournalEntry, getJournalEntries,
      sortByTimestampDesc, List.mergeSort_singleton, List.map_cons, List.map_nil]
    decide
  refine ⟨h, ?_⟩
  rw [h]
  decide

/-! ## Claim C3: default-note substitution on save -/

/-- Claim C3 (counterexample): the STORE save operation persists the note
verbatim; saving with an empty note and mood happy persists the empty note,
not the templated default, so the substitution cannot be attributed to the
store save. -/
theorem store_save_keeps_empty_note :
    (saveJournalEntry constFmt 1000
      { date := 0, mood := .happy, note := "", weather := sampleWeather }
      none).1.note = "" ∧
    ¬ ((saveJournalEntry constFmt 1000
      { date := 0, mood := .happy, note := "", weather := sampleWeather }
      none).1.note = "Feeling happy today") := by
  constructor <;> decide

/-- Claim C3 (amended): the store save persists the incoming note verbatim;
the trimming and default substitution happen in the UI handler
`handleSaveEntry` before the store is called, so the end-to-end save flow
persists "Feeling mood today" whenever the trimmed note is empty. -/
theorem default_note_substituted_in_handler :
    (∀ (fmt : Int → String) (now : Int) (d : EntryData) (stored : StoredState),
      (saveJournalEntry fmt now d stored).1.note = d.note) ∧
    (∀ (fmt : Int → String) (now selectedDate : Int) (mood : Mood)
       (note : String) (w : Weather) (stored : StoredState),
      jsTrim note = "" →
      ∃ e es, handleSaveEntry fmt now selectedDate (some mood) note (some w) stored
          = some (e, es) ∧
        e.note = "Feeling " ++ moodToString mood ++ " today" ∧
        es.head? = some e) := by
  refine ⟨fun _ _ _ _ => rfl, ?_⟩
  intro fmt now selectedDate mood note w stored h
  refine ⟨_, _, rfl, ?_, rfl⟩
  simp [handleSaveEntry, saveJournalEntry, h]

/-- Witness for C3: the save flow with a whitespace-only note and mood
happy persists the note "Feeling happy today" at the head of the store. -/
theorem default_note_substituted_in_handler_witness :
    jsTrim " " = "" ∧
    ∃ e es, handleSaveEntry constFmt 1000 0 (some .happy) " " (some sampleWeather) none
        = some (e, es) ∧
      e.note = "Feeling happy today" ∧
      es.head? = some e := by
  refine ⟨by decide, ?_⟩
  obtain ⟨e, es, h1, h2, h3⟩ :=
    default_note_substituted_in_handler.2 constFmt 1000 0 .happy " " sampleWeather none
      (by decide)
  exact ⟨e, es, h1, h2.trans (by decide), h3⟩

end MoodJournal

namespace MoodJournal

/-! ## Helper lemmas: no rendered CSV field introduces a newline -/

theorem digitChar_ge16 (k : Nat) (h : 16 ≤ k) : Nat.digitChar k = '*' := by
  unfold Nat.digitChar
  iterate 16 rw [if_neg (by omega)]

theorem digitChar_ne_newline (k : Nat) : Nat.digitChar k ≠ '\n' := by
  by_cases hk : k < 16
  · have H : ∀ j, j < 16 → Nat.digitChar j ≠ '\n' := by decide
    exact H k hk
  · rw [digitChar_ge16 k (by omega)]
    decide

theorem toDigitsCore_no_newline :
    ∀ (fuel n : Nat) (ds : List Char), '\n' ∉ ds →
      '\n' ∉ Nat.toDigitsCore 10 fuel n ds := by
  intro fuel
  induction fuel with
  | zero =>
    intro n ds h
    simpa [Nat.toDigitsCore] using h
  | succ f ih =>
    intro n ds h
    simp only [Nat.toDigitsCore]
    split
    · intro hmem
      rcases List.mem_cons.mp hmem with h1 | h2
      · exact digitChar_ne_newline _ h1.symm
      · exact h h2
    · refine ih _ _ ?_
      intro hmem
      rcases List.mem_cons.mp hmem with h1 | h2
      · exact digitChar_ne_newline _ h1.symm
      · exact h h2

theorem nat_repr_no_newline (n : Nat) : '\n' ∉ (Nat.repr n).data :=
  toDigitsCore_no_newline _ _ _ (by simp)

theorem int_toString_no_newline (i : Int) : '\n' ∉ (toString i).data := by
  match i with
  | .ofNat m =>
    exact nat_repr_no_newline m
  | .negSucc m =>
    show '\n' ∉ ("-" ++ toString (m + 1)).data
    intro hmem
    rw [String.data_append] at hmem
    rcases List.mem_append.mp hmem with h1 | h2
    · simp at h1
    · exact nat_repr_no_newline _ h2

theorem moodToString_no_newline (m : Mood) : newlineCount (moodToString m) = 0 := by
  cases m <;> decide

theorem count_flatMap_escape (l : List Char) :
    (l.flatMap (fun c => if c = '"' then ['"', '"'] else [c])).count '\n'
      = l.count '\n' := by
  induction l with
  | nil => simp
  | cons c l ih =>
    by_cases hc : c = '"' <;>
      simp [hc, List.count_cons, List.count_append, ih]

theorem escapeQuotes_newlineCount (s : String) :
    newlineCount (escapeQuotes s) = newlineCount s :=
  count_flatMap_escape s.data

theorem int_toString_newlineCount (i : Int) : newlineCount (toString i) = 0 := by
  simp only [newlineCount, List.count_eq_zero]
  exact int_toString_no_newline i

theorem csvRow_newlineCount (e : JournalEntry)
    (h1 : newlineCount e.date = 0) (h2 : newlineCount e.note = 0)
    (h3 : newlineCount e.weather.condition = 0)
    (h4 : newlineCount (renderLocation e.weather.location) = 0) :
    newlineCount (csvRow e) = 0 := by
  have hmood := moodToString_no_newline e.mood
  have htemp := int_toString_newlineCount e.weather.temp
  have hq := escapeQuotes_newlineCount e.note
  simp only [newlineCount] at *
  simp only [csvRow, String.data_append, List.count_append]
  rw [hq]
  simp only [h1, h2, h3, h4, hmood, htemp]
  decide

end MoodJournal

namespace MoodJournal

/-! ## Claim C8: export precondition and two-line single-entry output -/

/-- Claim C8 (counterexample): exporting a single entry whose note embeds a
newline character yields a data string containing two newline characters,
i.e. three physical lines (header plus two), not exactly two lines. -/
theorem newline_note_csv_three_lines :
    (exportJournalEntries "2025-04-03" [newlineNoteEntry] .csv).toOption.map
      (fun p => newlineCount p.1) = some 2 := by decide

/-- Claim C8 (amended): export of an empty list fails with the
EmptyExportError ("No entries to export") for both formats, and export of a
single entry whose rendered fields contain no newline produces the header
line, one newline, and one quoted-field data row — exactly two lines. -/
theorem export_empty_fails_and_two_lines :
    (∀ (currentDate : String) (format : ExportFormat),
      exportJournalEntries currentDate [] format =
        Except.error "No entries to export") ∧
    (∀ (currentDate : String) (e : JournalEntry),
      newlineCount e.date = 0 → newlineCount e.note = 0 →
      newlineCount e.weather.condition = 0 →
      newlineCount (renderLocation e.weather.location) = 0 →
      exportJournalEntries currentDate [e] .csv =
        Except.ok (csvHeaderLine ++ "\n" ++ csvRow e,
          "moodmate-journal-" ++ currentDate ++ ".csv") ∧
      newlineCount (csvHeaderLine ++ "\n" ++ csvRow e) = 1 ∧
      newlineCount csvHeaderLine = 0 ∧ newlineCount (csvRow e) = 0) := by
  constructor
  · intro currentDate format
    cases format <;> rfl
  · intro currentDate e h1 h2 h3 h4
    have hrow := csvRow_newlineCount e h1 h2 h3 h4
    have hh : newlineCount csvHeaderLine = 0 := by decide
    refine ⟨?_, ?_, hh, hrow⟩
    · unfold exportJournalEntries
      rw [if_neg (by simp)]
      congr 2
    · have hnl : newlineCount "\n" = 1 := by decide
      simp only [newlineCount, String.data_append, List.count_append] at hh hnl hrow ⊢
      omega

/-- Witness for C8 at a concrete entry with newline-free fields: the export
succeeds and the data string is exactly two lines. -/
theorem export_empty_fails_and_two_lines_witness :
    newlineCount (sampleEntry 0).date = 0 ∧ newlineCount (sampleEntry 0).note = 0 ∧
    newlineCount (sampleEntry 0).weather.condition = 0 ∧
    newlineCount (renderLocation (sampleEntry 0).weather.location) = 0 ∧
    (exportJournalEntries "2025-04-01" [sampleEntry 0] .csv =
        Except.ok (csvHeaderLine ++ "\n" ++ csvRow (sampleEntry 0),
          "moodmate-journal-" ++ "2025-04-01" ++ ".csv") ∧
      newlineCount (csvHeaderLine ++ "\n" ++ csvRow (sampleEntry 0)) = 1 ∧
      newlineCount csvHeaderLine = 0 ∧ newlineCount (csvRow (sampleEntry 0)) = 0) :=
  ⟨by decide, by decide, by decide, by decide,
    export_empty_fails_and_two_lines.2 "2025-04-01" (sampleEntry 0)
      (by decide) (by decide) (by decide) (by decide)⟩

end MoodJournal

namespace MoodJournal

/-! ## Claim C2: CSV export format -/

/-- Claim C2 (counterexample): the claim says embedded double quotes are
escaped by doubling in EVERY field, but the code escapes only the note
field; an entry whose weather condition embeds a double quote is exported
verbatim, so the output differs from the claim-side rendering. -/
theorem csv_claim_escaping_counterexample :
    (exportJournalEntries "2025-04-02" [quoteCondEntry] .csv).toOption.map Prod.fst ≠
      some (csvOutputClaim [quoteCondEntry]) := by decide

theorem csvRow_eq_amended (e : JournalEntry) : csvRow e = csvRowSpecAmended e := by
  cases hloc : e.weather.location with
  | none =>
    apply String.ext
    simp [csvRow, csvRowSpecAmended, quoteCsvField, renderLocation, hloc,
      String.intercalate, String.intercalate.go]
  | some s =>
    by_cases hs : s = "" <;>
      · apply String.ext
        simp [csvRow, csvRowSpecAmended, quoteCsvField, renderLocation, hloc, hs,
          String.intercalate, String.intercalate.go]

/-- Claim C2 (amended): for every non-empty entry list, CSV export produces
the header row Date,Mood,Note,Temperature,Weather Condition,Location
followed by exactly one row per entry in input order, where every field is
double-quoted, embedded double quotes are escaped by doubling in the note
field only (the other fields are rendered verbatim), the temperature field
is the stored integer followed by the °C sign, and a missing or empty
location is rendered as the literal Unknown. -/
theorem csv_export_format_amended :
    ∀ (currentDate : String) (entries : List JournalEntry), entries ≠ [] →
      exportJournalEntries currentDate entries .csv =
        Except.ok (csvOutputSpecAmended entries,
          "moodmate-journal-" ++ currentDate ++ ".csv") := by
  intro currentDate entries h
  unfold exportJournalEntries
  rw [if_neg (by simpa using h)]
  unfold csvOutputSpecAmended
  rw [show csvRow = csvRowSpecAmended from funext csvRow_eq_amended]
  congr 1

/-- Witness for C2 at a concrete single-entry list. -/
theorem csv_export_format_amended_witness :
    ([sampleEntry 0] ≠ ([] : List JournalEntry)) ∧
    exportJournalEntries "2025-04-01" [sampleEntry 0] .csv =
      Except.ok (csvOutputSpecAmended [sampleEntry 0],
        "moodmate-journal-" ++ "2025-04-01" ++ ".csv") :=
  ⟨by decide, csv_export_format_amended "2025-04-01" [sampleEntry 0] (by decide)⟩

end MoodJournal

namespace MoodJournal

/-! ## Claim C4: mood distribution completeness and ordering -/

theorem moodStatsLE_trans (a b c : MoodStat) :
    moodStatsLE a b → moodStatsLE b c → moodStatsLE a c := by
  simp only [moodStatsLE, decide_eq_true_eq]
  exact fun h1 h2 => le_trans h2 h1

theorem moodStatsLE_total (a b : MoodStat) :
    (moodStatsLE a b || moodStatsLE b a) = true := by
  simp only [moodStatsLE, Bool.or_eq_true, decide_eq_true_eq]
  exact le_total _ _

/-- Every entry has exactly one of the five moods, so the per-mood counts
sum to the number of entries. -/
theorem sum_countMood (es : List JournalEntry) :
    countMood .happy es + countMood .neutral es + countMood .sad es +
      countMood .angry es + countMood .sick es = es.length := by
  induction es with
  | nil => rfl
  | cons e es ih =>
    simp only [countMood, List.countP_cons, List.length_cons] at *
    cases e.mood <;> simp <;> omega

/-- A pair of moods in enumeration order is a sublist of the enumeration. -/
theorem mood_pair_sublist (m1 m2 : Mood) (h : moodIdx m1 < moodIdx m2) :
    [m1, m2].Sublist allMoods := by
  cases m1 <;> cases m2 <;> first
    | exact absurd h (by decide)
    | decide

/-- Claim C4: for every entry list, the mood-distribution output has exactly
5 rows, one per mood in the fixed set (including zero-count moods); each
row's percentage equals 100 * count / totalEntries (0 when totalEntries is
0); rows are sorted by non-increasing percentage, with a percentage tie
between two moods always listing the earlier-enumerated mood first (the
sort is stable and the input is in enumeration order); and the percentages
sum to exactly 100 when the list is non-empty and to 0 when it is empty. -/
theorem moodStats_spec :
    ∀ es : List JournalEntry,
      (moodStats es).length = 5 ∧
      ((moodStats es).map (fun s => s.mood)).Perm allMoods ∧
      (∀ s ∈ moodStats es, s.count = countMood s.mood es ∧
        (es.length ≠ 0 → s.percentage = 100 * (s.count : ℚ) / es.length) ∧
        (es.length = 0 → s.percentage = 0)) ∧
      (moodStats es).Pairwise (fun a b => b.percentage ≤ a.percentage) ∧
      (∀ m1 m2 : Mood, moodIdx m1 < moodIdx m2 →
        (mkMoodStat es m1).percentage = (mkMoodStat es m2).percentage →
        [mkMoodStat es m1, mkMoodStat es m2].Sublist (moodStats es)) ∧
      (es ≠ [] → ((moodStats es).map (fun s => s.percentage)).sum = 100) ∧
      (es = [] → ((moodStats es).map (fun s => s.percentage)).sum = 0) := by
  intro es
  have hperm : (moodStats es).Perm (allMoods.map (mkMoodStat es)) :=
    List.mergeSort_perm _ _
  have hmoodmap : allMoods.map (fun m => (mkMoodStat es m).mood) = allMoods := rfl
  refine ⟨?_, ?_, ?_, ?_, ?_, ?_, ?_⟩
  · rw [hperm.length_eq]
    rfl
  · refine (hperm.map (fun s => s.mood)).trans ?_
    rw [List.map_map]
    exact hmoodmap ▸ List.Perm.refl _
  · intro s hs
    have hs2 : s ∈ allMoods.map (mkMoodStat es) := List.mem_mergeSort.mp hs
    obtain ⟨m, _, rfl⟩ := List.mem_map.mp hs2
    refine ⟨rfl, ?_, ?_⟩
    · intro hlen
      show (if es.length > 0 then ((countMood m es : ℚ) / es.length) * 100 else 0) = _
      rw [if_pos (Nat.pos_of_ne_zero hlen),
        show (mkMoodStat es m).count = countMood m es from rfl]
      ring
    · intro hlen
      show (if es.length > 0 then ((countMood m es : ℚ) / es.length) * 100 else 0) = 0
      rw [if_neg (by omega)]
  · have hs := List.sorted_mergeSort moodStatsLE_trans moodStatsLE_total
      (allMoods.map (mkMoodStat es))
    exact hs.imp (fun h => of_decide_eq_true h)
  · intro m1 m2 hidx hpct
    have h1 : [m1, m2].Sublist allMoods := mood_pair_sublist _ _ hidx
    have h2 : [mkMoodStat es m1, mkMoodStat es m2].Sublist
        (allMoods.map (mkMoodStat es)) := by
      simpa using h1.map (mkMoodStat es)
    exact List.pair_sublist_mergeSort moodStatsLE_trans moodStatsLE_total
      (by simp [moodStatsLE, hpct]) h2
  · intro hne
    rw [(hperm.map (fun s => s.percentage)).sum_eq]
    have hn : es.length ≠ 0 := by simpa using hne
    have hn0 : (es.length : ℚ) ≠ 0 := Nat.cast_ne_zero.mpr hn
    have hcount := sum_countMood es
    simp only [allMoods, List.map_cons, List.map_nil, List.sum_cons,
      List.sum_nil, mkMoodStat, if_pos (Nat.pos_of_ne_zero hn)]
    field_simp
    push_cast [← hcount]
    ring
  · intro hnil
    subst hnil
    rw [(hperm.map (fun s => s.percentage)).sum_eq]
    simp [allMoods, mkMoodStat, countMood]

/-- Witness for C4: instantiation at a concrete one-entry list; its five
percentages sum to 100. -/
theorem moodStats_spec_witness :
    ([sampleEntry 0] ≠ ([] : List JournalEntry)) ∧
    ((moodStats [sampleEntry 0]).map (fun s => s.percentage)).sum = 100 :=
  ⟨by decide, (moodStats_spec [sampleEntry 0]).2.2.2.2.2.1 (by decide)⟩

end MoodJournal

namespace MoodJournal

/-! ## Claim C5: weather-correlation dominant mood -/

/-- Invariant of the grouping loop: every accumulated group holds exactly
the already-processed entries with its condition, every group key was seen,
and every processed entry has a group. -/
theorem groupFold_characterization :
    ∀ (rest processed : List JournalEntry) (acc : List (String × List JournalEntry)),
      (∀ p ∈ acc, p.2 = processed.filter (fun e => decide (e.weather.condition = p.1))) →
      (∀ p ∈ acc, ∃ e ∈ processed, e.weather.condition = p.1) →
      (∀ e ∈ processed, ∃ p ∈ acc, p.1 = e.weather.condition) →
      ∀ q ∈ rest.foldl groupStep acc,
        q.2 = (processed ++ rest).filter (fun e => decide (e.weather.condition = q.1)) ∧
        ∃ e ∈ processed ++ rest, e.weather.condition = q.1 := by
  intro rest
  induction rest with
  | nil =>
    intro processed acc h1 h2 h3 q hq
    simp only [List.foldl_nil] at hq
    simp only [List.append_nil]
    exact ⟨h1 q hq, h2 q hq⟩
  | cons e rest ih =>
    intro processed acc h1 h2 h3 q hq
    simp only [List.foldl_cons] at hq
    have key := ih (processed ++ [e]) (groupStep acc e) ?_ ?_ ?_ q hq
    · constructor
      · rw [key.1]
        simp [List.append_assoc]
      · obtain ⟨x, hx, hcx⟩ := key.2
        refine ⟨x, ?_, hcx⟩
        simp only [List.append_assoc, List.singleton_append] at hx ⊢
        exact hx
    · -- group contents stay exact filters after one step
      intro p hp
      unfold groupStep at hp
      by_cases hany : acc.any (fun g => decide (g.1 = e.weather.condition))
      · rw [if_pos hany] at hp
        obtain ⟨g, hg, rfl⟩ := List.mem_map.mp hp
        by_cases hcond : g.1 = e.weather.condition
        · rw [if_pos hcond]
          simp only [List.filter_append, h1 g hg]
          congr 1
          simp [hcond]
        · rw [if_neg hcond]
          simp only [List.filter_append, h1 g hg]
          have : e.weather.condition ≠ g.1 := fun hh => hcond hh.symm
          simp [this]
      · rw [if_neg hany] at hp
        rcases List.mem_append.mp hp with hin | hnew
        · have hkey : ¬(p.1 = e.weather.condition) := by
            intro hh
            exact hany (List.any_eq_true.mpr ⟨p, hin, by simp [hh]⟩)
          simp only [List.filter_append, h1 p hin]
          have : e.weather.condition ≠ p.1 := fun hh => hkey hh.symm
          simp [this]
        · have hp' : p = (e.weather.condition, [e]) := by simpa using hnew
          subst hp'
          simp only [List.filter_append]
          have hnone : processed.filter
              (fun x => decide (x.weather.condition = e.weather.condition)) = [] := by
            rw [List.filter_eq_nil_iff]
            intro x hx
            simp only [decide_eq_true_eq]
            intro hcx
            obtain ⟨g, hg, hgx⟩ := h3 x hx
            exact hany (List.any_eq_true.mpr ⟨g, hg, by simp [hgx, hcx]⟩)
          rw [hnone]
          simp
    · -- every key was seen after one step
      intro p hp
      unfold groupStep at hp
      by_cases hany : acc.any (fun g => decide (g.1 = e.weather.condition))
      · rw [if_pos hany] at hp
        obtain ⟨g, hg, rfl⟩ := List.mem_map.mp hp
        obtain ⟨x, hx, hcx⟩ := h2 g hg
        by_cases hcond : g.1 = e.weather.condition
        · rw [if_pos hcond]
          exact ⟨x, by simp [hx], hcx⟩
        · rw [if_neg hcond]
          exact ⟨x, by simp [hx], hcx⟩
      · rw [if_neg hany] at hp
        rcases List.mem_append.mp hp with hin | hnew
        · obtain ⟨x, hx, hcx⟩ := h2 p hin
          exact ⟨x, by simp [hx], hcx⟩
        · have hp' : p = (e.weather.condition, [e]) := by simpa using hnew
          subst hp'
          exact ⟨e, by simp, rfl⟩
    · -- every processed entry still has a group after one step
      intro x hx
      unfold groupStep
      rcases List.mem_append.mp hx with hxp | hxe
      · obtain ⟨g, hg, hgx⟩ := h3 x hxp
        by_cases hany : acc.any (fun g => decide (g.1 = e.weather.condition))
        · rw [if_pos hany]
          by_cases hcond : g.1 = e.weather.condition
          · refine ⟨(g.1, g.2 ++ [e]), ?_, hgx⟩
            apply List.mem_map.mpr
            exact ⟨g, hg, by rw [if_pos hcond]⟩
          · refine ⟨g, ?_, hgx⟩
            apply List.mem_map.mpr
            exact ⟨g, hg, by rw [if_neg hcond]⟩
        · rw [if_neg hany]
          exact ⟨g, by simp [hg], hgx⟩
      · have hxe' : x = e := by simpa using hxe
        subst hxe'
        by_cases hany : acc.any (fun g => decide (g.1 = x.weather.condition))
        · rw [if_pos hany]
          obtain ⟨g, hg, hgc⟩ := List.any_eq_true.mp hany
          simp only [decide_eq_true_eq] at hgc
          by_cases hcond : g.1 = x.weather.condition
          · refine ⟨(g.1, g.2 ++ [x]), ?_, hgc⟩
            apply List.mem_map.mpr
            exact ⟨g, hg, by rw [if_pos hcond]⟩
          · exact absurd hgc hcond
        · rw [if_neg hany]
          exact ⟨(x.weather.condition, [x]), by simp, rfl⟩

/-- Each group produced by `groupByCondition` consists of exactly the
entries carrying its condition, in input order, and is non-empty. -/
theorem groupByCondition_characterization (entries : List JournalEntry) :
    ∀ q ∈ groupByCondition entries,
      q.2 = entries.filter (fun e => decide (e.weather.condition = q.1)) ∧
      q.2 ≠ [] := by
  intro q hq
  have h := groupFold_characterization entries [] []
    (by simp) (by simp) (by simp) q (by simpa [groupByCondition] using hq)
  obtain ⟨hfilt, x, hx, hcx⟩ := h
  simp only [List.nil_append] at hfilt hx
  refine ⟨hfilt, ?_⟩
  have hmem : x ∈ q.2 := by
    rw [hfilt]
    exact List.mem_filter.mpr ⟨hx, by simp [hcx]⟩
  exact List.ne_nil_of_mem hmem

/-- Behaviour of the dominant-mood scan: when some count is positive, the
champion achieves the maximal count and, among maximal moods, has the least
enumeration index. -/
theorem dominantFold_spec (counts : Mood → Nat)
    (h : 0 < counts .happy + counts .neutral + counts .sad +
      counts .angry + counts .sick) :
    counts (dominantFold counts).1 = (dominantFold counts).2 ∧
    (∀ m, counts m ≤ (dominantFold counts).2) ∧
    (∀ m, counts m = (dominantFold counts).2 →
      moodIdx (dominantFold counts).1 ≤ moodIdx m) := by
  simp only [dominantFold, allMoods, List.foldl_cons, List.foldl_nil]
  split_ifs <;>
    · dsimp only at *
      exact ⟨by omega, fun m => by cases m <;> omega,
        fun m hm => by cases m <;> simp only [moodIdx] <;> omega⟩

end MoodJournal

namespace MoodJournal

/-- Claim C5: every group of the weather correlation consists of exactly
the entries sharing its exact condition string and is non-empty; every
reported row is the per-group computation on such a group; and for every
non-empty group the dominant mood has the maximal mood count with ties
broken in favour of the earlier mood in the fixed enumeration,
dominantPercentage = round(100 * dominantCount / groupSize) and
averageTemp = round(mean of weather.temp over the group). -/
theorem correlation_spec :
    ∀ entries : List JournalEntry,
      (∀ p ∈ groupByCondition entries,
        p.2 = entries.filter (fun e => decide (e.weather.condition = p.1)) ∧
        p.2 ≠ []) ∧
      (∀ row ∈ correlation entries, ∃ p ∈ groupByCondition entries,
        row = correlationRowFor p.1 p.2) ∧
      (∀ (c : String) (g : List JournalEntry), g ≠ [] →
        (correlationRowFor c g).condition = c ∧
        (correlationRowFor c g).totalEntries = g.length ∧
        (∀ m, countMood m g ≤ countMood (correlationRowFor c g).dominantMood g) ∧
        (∀ m, countMood m g = countMood (correlationRowFor c g).dominantMood g →
          moodIdx (correlationRowFor c g).dominantMood ≤ moodIdx m) ∧
        (correlationRowFor c g).dominantPercentage =
          jsRound (100 * (countMood (correlationRowFor c g).dominantMood g : ℚ)
            / g.length) ∧
        (correlationRowFor c g).averageTemp =
          jsRound ((((g.map (fun e => e.weather.temp)).sum : Int) : ℚ) / g.length)) := by
  intro entries
  refine ⟨groupByCondition_characterization entries, ?_, ?_⟩
  · intro row hrow
    have h : row ∈ (groupByCondition entries).map (fun p => correlationRowFor p.1 p.2) :=
      List.mem_mergeSort.mp hrow
    obtain ⟨p, hp, rfl⟩ := List.mem_map.mp h
    exact ⟨p, hp, rfl⟩
  · intro c g hg
    have hlen : 0 < g.length := List.length_pos.mpr hg
    have hpos : 0 < countMood .happy g + countMood .neutral g + countMood .sad g +
        countMood .angry g + countMood .sick g := by
      rw [sum_countMood]
      exact hlen
    have hd := dominantFold_spec (fun m => countMood m g) hpos
    have hr : (correlationRowFor c g).dominantMood
        = (dominantFold fun m => countMood m g).1 := rfl
    have hc1 : countMood (dominantFold fun m => countMood m g).1 g
        = (dominantFold fun m => countMood m g).2 := hd.1
    refine ⟨rfl, rfl, ?_, ?_, ?_, rfl⟩
    · intro m
      rw [hr, hc1]
      exact hd.2.1 m
    · intro m hm
      rw [hr]
      refine hd.2.2 m ?_
      rw [hr, hc1] at hm
      exact hm
    · show jsRound ((((dominantFold fun m => countMood m g).2 : ℚ) / g.length) * 100)
        = jsRound (100 * (countMood (correlationRowFor c g).dominantMood g : ℚ)
            / g.length)
      rw [hr, hc1]
      congr 1
      ring

/-- Witness for C5: the three-Rain-entries scenario; dominant mood sad,
dominant percentage 67, average temperature 19, and sad achieves the
maximal count in the group. -/
theorem correlation_spec_witness :
    rainEntries ≠ [] ∧
    (correlationRowFor "Rain" rainEntries).dominantMood = Mood.sad ∧
    (correlationRowFor "Rain" rainEntries).dominantPercentage = 67 ∧
    (correlationRowFor "Rain" rainEntries).averageTemp = 19 ∧
    (∀ m, countMood m rainEntries ≤
      countMood (correlationRowFor "Rain" rainEntries).dominantMood rainEntries) :=
  ⟨by decide, by decide, by with_unfolding_all decide, by with_unfolding_all decide,
    ((correlation_spec rainEntries).2.2 "Rain" rainEntries (by decide)).2.2.1⟩

end MoodJournal
